import Mathlib

/-!
Shallow embedding of src/main.rs: the three DER key loaders, standard
base64 decoding, whitespace trimming, claims issuance (test_keys) and the
diagnostic orchestrator (main). File reads and environment lookups are
modelled by an explicit World; calls that can panic (Result::unwrap on an
Err) are modelled by a dedicated constructor, so a crash is distinguished
from a returned error.
-/

namespace DerBroken

/-- Models Rust Result. -/
inductive Res (ε α : Type) where
  | ok (a : α)
  | err (e : ε)
deriving DecidableEq

/-- Result of a computation that may also panic (via Result::unwrap on an
Err value), aborting the process. -/
inductive PRes (ε α : Type) where
  | ok (a : α)
  | err (e : ε)
  | panic
deriving DecidableEq

/-- base64::DecodeError of the base64 crate. Payloads are best-effort;
the ok/err boundary follows the crate. -/
inductive DecodeError where
  | invalidByte (offset : Nat) (byte : Nat)
  | invalidLength (len : Nat)
  | invalidLastSymbol (offset : Nat) (byte : Nat)
  | invalidPadding
deriving DecidableEq

/-- std::env::VarError. The model environment holds unicode values only,
so lookups produce notPresent; notUnicode is kept for the type shape. -/
inductive VarError where
  | notPresent
  | notUnicode
deriving DecidableEq

/-- The Display implementation of std::env::VarError: NotPresent prints
the fixed message "environment variable not found". -/
def VarError.display : VarError → String
  | .notPresent => "environment variable not found"
  | .notUnicode => "environment variable was not valid unicode"

/-- Value of a standard-alphabet base64 symbol, by unicode code point
(A-Z, a-z, 0-9, plus, slash). -/
def b64ValN (n : Nat) : Option Nat :=
  if 65 ≤ n ∧ n ≤ 90 then some (n - 65)
  else if 97 ≤ n ∧ n ≤ 122 then some (n - 71)
  else if 48 ≤ n ∧ n ≤ 57 then some (n + 4)
  else if n = 43 then some 62
  else if n = 47 then some 63
  else none

def b64Val (c : Char) : Option Nat := b64ValN c.toNat

/-- First input symbol that is not in the standard alphabet, with its
offset and code point. -/
def firstInvalid : List Char → Nat → Option (Nat × Nat)
  | [], _ => none
  | c :: t, i => if (b64Val c).isSome then firstInvalid t (i + 1) else some (i, c.toNat)

/-- The 6-bit values of the body symbols (defined after firstInvalid has
ruled out symbols outside the alphabet). -/
def sextets (body : List Char) : List Nat :=
  body.map (fun c => (b64Val c).getD 0)

/-- Reassemble 6-bit groups into bytes: each full group of 4 symbols gives
3 bytes; a trailing pair or triple (from a padded final quantum) gives 1
or 2 bytes. -/
def quadsToBytes : List Nat → List Nat
  | a :: b :: c :: d :: rest =>
      (a * 4 + b / 16) :: ((b % 16) * 16 + c / 4) :: ((c % 4) * 64 + d) :: quadsToBytes rest
  | [a, b] => [a * 4 + b / 16]
  | [a, b, c] => [a * 4 + b / 16, (b % 16) * 16 + c / 4]
  | _ => []

/-- With 2 padding characters the last symbol must have its low 4 bits
zero; with 1 padding character its low 2 bits (trailing bits are rejected
by the STANDARD engine). -/
def trailingBitsOk (sex : List Nat) (pad : Nat) : Bool :=
  match pad with
  | 2 => (sex.getLast?.getD 0) % 16 == 0
  | 1 => (sex.getLast?.getD 0) % 4 == 0
  | _ => true

/-- BASE64.decode for the STANDARD engine of the base64 crate: standard
alphabet, canonical padding required (total length a multiple of 4, at
most two trailing padding characters), padding characters only at the
end, nonzero trailing bits rejected. -/
def b64decode (s : List Char) : Res DecodeError (List Nat) :=
  let pad := (s.reverse.takeWhile (fun c => c == '=')).length
  let body := s.take (s.length - pad)
  match firstInvalid body 0 with
  | some (i, b) => .err (.invalidByte i b)
  | none =>
    if 2 < pad then .err .invalidPadding
    else if (body.length + pad) % 4 ≠ 0 then
      (if pad = 0 then .err (.invalidLength s.length) else .err .invalidPadding)
    else
      let sex := sextets body
      if trailingBitsOk sex pad then .ok (quadsToBytes sex)
      else .err (.invalidLastSymbol (body.length - 1) (((body.getLast?).map Char.toNat).getD 0))

/-- The unicode White_Space property by code point, as used by the Rust
char::is_whitespace method (and hence by str::trim). -/
def rustWhitespaceN (n : Nat) : Bool :=
  if n = 9 ∨ n = 10 ∨ n = 11 ∨ n = 12 ∨ n = 13 ∨ n = 32 ∨ n = 133 ∨ n = 160 ∨ n = 5760 then
    true
  else if 8192 ≤ n ∧ n ≤ 8202 then true
  else if n = 8232 ∨ n = 8233 ∨ n = 8239 ∨ n = 8287 ∨ n = 12288 then true
  else false

def isRustWhitespace (c : Char) : Bool := rustWhitespaceN c.toNat

/-- Rust str::trim: strip leading and trailing unicode whitespace. -/
def rustTrim (s : List Char) : List Char :=
  ((s.dropWhile isRustWhitespace).reverse.dropWhile isRustWhitespace).reverse

/-- A character a base64 payload may contain: an alphabet symbol or the
padding character. -/
def isB64Symbol (c : Char) : Bool := (b64Val c).isSome || c == '='

/-- The ambient state the program reads: file contents as raw bytes
(std::fs::read), file contents as text (std::fs::read_to_string, which
also fails on non-UTF8 data), and the process environment after the
best-effort dotenv merge. An err value carries the message of the
underlying I/O error. -/
structure World where
  fsBytes : String → Res String (List Nat)
  fsText : String → Res String (List Char)
  env : String → Option (List Char)

/-- The AuthError enum of src/main.rs. -/
inductive AuthError where
  | tokenCreation
  | fileReadError (e : String)
  | base64DecodeError (e : DecodeError)
  | envVarNotFound (s : String)
deriving DecidableEq

/-- b64file_to_bytes: std::fs::read_to_string(path).unwrap() — a read
failure panics — then BASE64.decode of the trimmed text, the decode error
returned to the caller. -/
def b64file_to_bytes (w : World) (path : String) : PRes DecodeError (List Nat) :=
  match w.fsText path with
  | .err _ => .panic
  | .ok s =>
    match b64decode (rustTrim s) with
    | .err e => .err e
    | .ok bytes => .ok bytes

/-- env_b64_to_bytes: env::var(env_var)? returns the VarError to the
caller, then BASE64.decode(b64.trim()).unwrap() — a decode failure
panics. -/
def env_b64_to_bytes (w : World) (envVar : String) : PRes VarError (List Nat) :=
  match w.env envVar with
  | none => .err .notPresent
  | some s =>
    match b64decode (rustTrim s) with
    | .err _ => .panic
    | .ok bytes => .ok bytes

/-- Keys of src/main.rs: EncodingKey and DecodingKey of the jsonwebtoken
crate store the DER bytes as given — from_rsa_der performs no parsing. -/
structure Keys where
  encoding : List Nat
  decoding : List Nat
deriving DecidableEq

/-- Keys::from_der: wraps both buffers unconditionally. -/
def Keys.from_der (private_key public_key : List Nat) : Keys :=
  { encoding := private_key, decoding := public_key }

/-- FileDerLoader::load: std::fs::read of private.der then public.der,
each read error mapped to AuthError::FileReadError. The second component
records, in order, the resources the call accessed. -/
def FileDerLoader.load (w : World) : PRes AuthError Keys × List String :=
  match w.fsBytes "private.der" with
  | .err e => (.err (.fileReadError e), ["private.der"])
  | .ok p =>
    match w.fsBytes "public.der" with
    | .err e => (.err (.fileReadError e), ["private.der", "public.der"])
    | .ok q => (.ok (Keys.from_der p q), ["private.der", "public.der"])

/-- B64FileDerLoader::load: b64file_to_bytes on private.der.b64 then
public.der.b64, each returned decode error mapped to
AuthError::Base64DecodeError; a panic inside b64file_to_bytes
propagates. -/
def B64FileDerLoader.load (w : World) : PRes AuthError Keys × List String :=
  match b64file_to_bytes w "private.der.b64" with
  | .panic => (.panic, ["private.der.b64"])
  | .err e => (.err (.base64DecodeError e), ["private.der.b64"])
  | .ok p =>
    match b64file_to_bytes w "public.der.b64" with
    | .panic => (.panic, ["private.der.b64", "public.der.b64"])
    | .err e => (.err (.base64DecodeError e), ["private.der.b64", "public.der.b64"])
    | .ok q => (.ok (Keys.from_der p q), ["private.der.b64", "public.der.b64"])

/-- EnvB64DerLoader::load: dotenv().ok() merges an optional environment
file best-effort (the World env field models the post-merge environment),
then env_b64_to_bytes on JWT_PRIVATE and JWT_PUBLIC; each returned
VarError is mapped to AuthError::EnvVarNotFound carrying the Display
string of the VarError; a panic inside env_b64_to_bytes propagates. -/
def EnvB64DerLoader.load (w : World) : PRes AuthError Keys × List String :=
  match env_b64_to_bytes w "JWT_PRIVATE" with
  | .panic => (.panic, ["JWT_PRIVATE"])
  | .err e => (.err (.envVarNotFound e.display), ["JWT_PRIVATE"])
  | .ok p =>
    match env_b64_to_bytes w "JWT_PUBLIC" with
    | .panic => (.panic, ["JWT_PRIVATE", "JWT_PUBLIC"])
    | .err e => (.err (.envVarNotFound e.display), ["JWT_PRIVATE", "JWT_PUBLIC"])
    | .ok q => (.ok (Keys.from_der p q), ["JWT_PRIVATE", "JWT_PUBLIC"])

/-- The three loaders main exercises, as a closed set. -/
inductive LoaderKind where
  | fileDer
  | b64FileDer
  | envB64Der
deriving DecidableEq

def loadOf : LoaderKind → World → PRes AuthError Keys × List String
  | .fileDer => FileDerLoader.load
  | .b64FileDer => B64FileDerLoader.load
  | .envB64Der => EnvB64DerLoader.load

/-- The Claims struct of src/main.rs (exp in unix seconds, as usize). -/
structure Claims where
  sub : String
  iss : String
  exp : Nat
deriving DecidableEq

inductive Algorithm where
  | RS256
deriving DecidableEq

/-- An issued compact token, kept structural: the header algorithm, the
signed claims payload and the signature bytes. -/
structure Token where
  alg : Algorithm
  payload : Claims
  sig : List Nat
deriving DecidableEq

/-- The external RS256 signing primitive (ring, reached through
jsonwebtoken::encode): given the private-key DER bytes and the claims it
returns a signature, or none when the bytes are rejected (for instance
because they are not a valid RSA private key). RSA itself is an external
collaborator, so the primitive is a parameter of the model. -/
abbrev Signer := List Nat → Claims → Option (List Nat)

/-- The claims test_keys builds: fixed subject and issuer, expiry now
plus chrono Duration::days(7), i.e. 604800 seconds. -/
def testClaims (now : Nat) : Claims :=
  { sub := "test@domain.com", iss := "main.rs", exp := now + 7 * 86400 }

/-- test_keys: a Header for RS256, the demonstration claims with expiry
now + 7 days, then jwt_encode with the encoding key; a signing failure is
mapped to AuthError::TokenCreation. now is the unix timestamp of
chrono Utc::now() at the call. -/
def test_keys (sg : Signer) (now : Nat) (keys : Keys) : Res AuthError Token :=
  match sg keys.encoding (testClaims now) with
  | some s => .ok { alg := .RS256, payload := testClaims now, sig := s }
  | none => .err .tokenCreation

/-- Per-attempt outcome as main reports it. -/
inductive Outcome where
  | issued (t : Token)
  | loadFailed (e : AuthError)
  | signFailed (e : AuthError)
deriving DecidableEq

def sourceName : LoaderKind → String
  | .fileDer => "FileDerLoader"
  | .b64FileDer => "B64FileDerLoader"
  | .envB64Der => "EnvB64DerLoader"

/-- Result of one attempt: either an outcome was reported (logged), or
the attempt panicked, aborting the process. -/
inductive AttemptResult where
  | reported (o : Outcome)
  | panicked
deriving DecidableEq

/-- One arm of main: match the load; an Err is reported as a load
failure; on Ok the keys are passed to test_keys, whose Err is reported as
a signing failure; a panic is not caught. -/
def attempt (sg : Signer) (now : Nat) (l : LoaderKind) (w : World) : AttemptResult :=
  match (loadOf l w).1 with
  | .panic => .panicked
  | .err e => .reported (.loadFailed e)
  | .ok keys =>
    match test_keys sg now keys with
    | .err e => .reported (.signFailed e)
    | .ok t => .reported (.issued t)

/-- Result of a whole run of main: either all queued attempts reported an
outcome, or a panic aborted the run after the listed reports. -/
inductive RunResult where
  | completed (reports : List (String × Outcome))
  | aborted (reports : List (String × Outcome))
deriving DecidableEq

def runList (sg : Signer) (now : LoaderKind → Nat) (w : World) :
    List LoaderKind → List (String × Outcome) → RunResult
  | [], acc => .completed acc
  | l :: ls, acc =>
    match attempt sg (now l) l w with
    | .panicked => .aborted acc
    | .reported o => runList sg now w ls (acc ++ [(sourceName l, o)])

/-- main: the three loaders in the fixed order FileDerLoader,
B64FileDerLoader, EnvB64DerLoader, one attempt each; now gives the
timestamp at which each attempt calls Utc::now(). -/
def mainRun (sg : Signer) (now : LoaderKind → Nat) (w : World) : RunResult :=
  runList sg now w [.fileDer, .b64FileDer, .envB64Der] []

/-- Modelled from the spec: the error taxonomy of section 7, including
the KeyParse kind that the spec asks an implementer to add. -/
inductive SpecErrorKind where
  | fileRead
  | base64Decode
  | envVarNotFound
  | keyParse
  | tokenCreation
deriving DecidableEq

/-- The taxonomy kind of each error the code can report. -/
def AuthError.specKind : AuthError → SpecErrorKind
  | .tokenCreation => .tokenCreation
  | .fileReadError _ => .fileRead
  | .base64DecodeError _ => .base64Decode
  | .envVarNotFound _ => .envVarNotFound

/-- Modelled from the spec: DER is a binary encoding for key material; a
DER-encoded RSA key is an ASN.1 SEQUENCE, so its encoding begins with the
tag byte 0x30 = 48. This necessary condition stands in for the external
DER decoder, which is outside the repository. -/
def derIsPlausibleRsa : List Nat → Bool
  | b :: _ => b == 48
  | [] => false

/-- The resource each loader reads for the private key. -/
def privName : LoaderKind → String
  | .fileDer => "private.der"
  | .b64FileDer => "private.der.b64"
  | .envB64Der => "JWT_PRIVATE"

/-- The resource each loader reads for the public key. -/
def pubName : LoaderKind → String
  | .fileDer => "public.der"
  | .b64FileDer => "public.der.b64"
  | .envB64Der => "JWT_PUBLIC"

/-- The private-key stage of each loader, with that loader's error
mapping applied (the first half of each load body). -/
def privStage (l : LoaderKind) (w : World) : PRes AuthError (List Nat) :=
  match l with
  | .fileDer =>
    match w.fsBytes "private.der" with
    | .err e => .err (.fileReadError e)
    | .ok p => .ok p
  | .b64FileDer =>
    match b64file_to_bytes w "private.der.b64" with
    | .panic => .panic
    | .err e => .err (.base64DecodeError e)
    | .ok p => .ok p
  | .envB64Der =>
    match env_b64_to_bytes w "JWT_PRIVATE" with
    | .panic => .panic
    | .err e => .err (.envVarNotFound e.display)
    | .ok p => .ok p

/-- A zeroed 8-byte buffer: not valid DER (wrong leading tag). -/
def zeroBuf : List Nat := [0, 0, 0, 0, 0, 0, 0, 0]

/-- A filesystem whose .der files hold the zeroed buffer. -/
def wZero : World where
  fsBytes := fun _ => .ok zeroBuf
  fsText := fun _ => .err "unused"
  env := fun _ => none

/-- A signer that rejects every key, as ring does when the private-key
bytes are not a valid RSA key in DER form. -/
def rejectAll : Signer := fun _ _ => none

/-- Environment where JWT_PRIVATE holds malformed base64 and JWT_PUBLIC
holds valid base64. -/
def wEnvBadB64 : World where
  fsBytes := fun _ => .err "io"
  fsText := fun _ => .err "io"
  env := fun v =>
    if v = "JWT_PRIVATE" then some ['%']
    else if v = "JWT_PUBLIC" then some ("AA==".toList)
    else none

/-- Filesystem where private.der.b64 cannot be read as text. -/
def wB64FileUnreadable : World where
  fsBytes := fun _ => .err "io"
  fsText := fun p =>
    if p = "private.der.b64" then .err "No such file or directory" else .err "io"
  env := fun _ => none

/-- Filesystem where private.der.b64 is readable but holds malformed
base64. -/
def wB64FileBadContent : World where
  fsBytes := fun _ => .err "io"
  fsText := fun p => if p = "private.der.b64" then .ok ['%'] else .err "io"
  env := fun _ => none

/-- Environment with both JWT variables unset. -/
def wEnvUnset : World where
  fsBytes := fun _ => .err "io"
  fsText := fun _ => .err "io"
  env := fun _ => none

/-- World where the raw .der files are fine but private.der.b64 is
missing: the first attempt can succeed, the second panics. -/
def wRunAbort : World where
  fsBytes := fun p => if p = "private.der" then .ok [0] else .ok [1]
  fsText := fun _ => .err "No such file or directory"
  env := fun _ => none

/-- A signer that accepts every key with a fixed signature. -/
def sgConst : Signer := fun _ _ => some [9]

/-- World presenting the same keypair bytes [0] and [1] through all three
sources: raw files, base64 files, base64 environment values. -/
def wEquiv : World where
  fsBytes := fun p =>
    if p = "private.der" then .ok [0]
    else if p = "public.der" then .ok [1]
    else .err "io"
  fsText := fun p =>
    if p = "private.der.b64" then .ok ("AA==".toList)
    else if p = "public.der.b64" then .ok ("AQ==".toList)
    else .err "io"
  env := fun v =>
    if v = "JWT_PRIVATE" then some ("AA==".toList)
    else if v = "JWT_PUBLIC" then some ("AQ==".toList)
    else none

/-- A signer that signs exactly with the private key [0]. -/
def sgKeyZero : Signer := fun k _ => if k = [0] then some [7] else none

/-- A verifier that accepts everything (the parametric scheme used in the
equivalence witness). -/
def vfTrue : List Nat → Claims → List Nat → Bool := fun _ _ _ => true

/-- A signer that signs everything with the empty signature. -/
def sgEmpty : Signer := fun _ _ => some []

def keysEmpty : Keys := { encoding := [], decoding := [] }

/-- The token sgEmpty issues at time 0. -/
def tokenEmpty : Token := { alg := .RS256, payload := testClaims 0, sig := [] }

/-- World where every file read fails with the message boom. -/
def wAllBoom : World where
  fsBytes := fun _ => .err "boom"
  fsText := fun _ => .err "boom"
  env := fun _ => none

/-- C1: evaluation of the code at the failing input. With JWT_PRIVATE
set to the malformed base64 value "%" (and JWT_PUBLIC set to valid
base64), EnvB64DerLoader.load panics instead of returning a Base64Decode
error: env_b64_to_bytes unwraps the decode result. The second conjunct
shows the decode itself fails with an invalid-byte error, which the claim
expected to be surfaced. -/
theorem C1_env_malformed_b64_panics :
    EnvB64DerLoader.load wEnvBadB64 = (.panic, ["JWT_PRIVATE"]) ∧
    b64decode (rustTrim ['%']) = .err (.invalidByte 0 37) := by
  constructor
  · decide
  · decide

/-- C2: evaluation of the code at the failing input. When private.der.b64
cannot be read as text, B64FileDerLoader.load panics (b64file_to_bytes
unwraps the read_to_string result) instead of returning a FileRead error;
when the file is readable but holds malformed base64, it does return a
Base64Decode error. -/
theorem C2_b64file_read_failure_panics :
    B64FileDerLoader.load wB64FileUnreadable = (.panic, ["private.der.b64"]) ∧
    B64FileDerLoader.load wB64FileBadContent =
      (.err (.base64DecodeError (.invalidByte 0 37)), ["private.der.b64"]) := by
  constructor
  · decide
  · decide

/-- C3: evaluation of the code at the failing input. With JWT_PRIVATE
unset, EnvB64DerLoader.load reports EnvVarNotFound whose carried detail
is the Display string of std::env::VarError::NotPresent — the fixed
message "environment variable not found" — and not the variable name
"JWT_PRIVATE" the claim requires. -/
theorem C3_env_missing_reports_generic_message :
    EnvB64DerLoader.load wEnvUnset =
      (.err (.envVarNotFound "environment variable not found"), ["JWT_PRIVATE"]) ∧
    ("environment variable not found" : String) ≠ "JWT_PRIVATE" := by
  constructor
  · decide
  · decide

/-- C5: evaluation of the code at the failing input. In a world where the
raw .der files load fine but private.der.b64 is missing, the run aborts
at the second attempt: the first attempt is reported, the panic inside
b64file_to_bytes is not caught at the attempt boundary, and
EnvB64DerLoader is never attempted (only one report exists). -/
theorem C5_panic_aborts_run :
    mainRun sgConst (fun _ => 0) wRunAbort =
      .aborted [("FileDerLoader",
        .issued { alg := .RS256, payload := testClaims 0, sig := [9] })] := by
  decide

/-- C4 counterexample: a zeroed buffer is malformed DER (it fails even
the SEQUENCE-tag necessary condition), yet the pipeline never produces a
KeyParse outcome for it: the load succeeds — Keys::from_der performs no
parsing — and the attempt reports a TokenCreation signing failure, whose
taxonomy kind is not KeyParse. -/
theorem C4_counterexample :
    derIsPlausibleRsa zeroBuf = false ∧
    FileDerLoader.load wZero = (.ok (Keys.from_der zeroBuf zeroBuf),
      ["private.der", "public.der"]) ∧
    attempt rejectAll 0 .fileDer wZero = .reported (.signFailed .tokenCreation) ∧
    AuthError.specKind .tokenCreation ≠ SpecErrorKind.keyParse := by
  refine ⟨by decide, by decide, by decide, by decide⟩

/-- C4 (amended): malformed DER key bytes reaching the KeyMaterial
construction step never yield a KeyParse error — the error type of the
code has no such kind — because Keys::from_der succeeds unconditionally,
storing the raw bytes; when the external signer then rejects the key, the
per-attempt outcome is a reported TokenCreation signing failure and the
attempt does not panic. -/
theorem C4_amended_no_keyparse (w : World) (sg : Signer) (now : Nat) (p q : List Nat)
    (hp : w.fsBytes "private.der" = .ok p) (hq : w.fsBytes "public.der" = .ok q)
    (hrej : sg p (testClaims now) = none) :
    (loadOf .fileDer w).1 = .ok (Keys.from_der p q) ∧
    attempt sg now .fileDer w = .reported (.signFailed .tokenCreation) ∧
    (∀ e : AuthError, e.specKind ≠ SpecErrorKind.keyParse) := by
  refine ⟨?_, ?_, ?_⟩
  · simp [loadOf, FileDerLoader.load, hp, hq]
  · simp [attempt, loadOf, FileDerLoader.load, hp, hq, test_keys, Keys.from_der, hrej]
  · intro e
    cases e <;> simp [AuthError.specKind]

theorem C4_amended_no_keyparse_witness :
    attempt rejectAll 3 .fileDer wZero = .reported (.signFailed .tokenCreation) :=
  (C4_amended_no_keyparse wZero rejectAll 3 zeroBuf zeroBuf rfl rfl rfl).2.1

/-- C6 counterexample: with zeroed buffers in both .der files — bytes
that cannot be DER RSA key material, failing even the SEQUENCE-tag
necessary condition — the pipeline does not fail before KeyMaterial is
constructed: the load succeeds and the constructed Keys value holds the
unparsed zeroed bytes. -/
theorem C6_counterexample :
    (loadOf .fileDer wZero).1 = .ok (Keys.from_der zeroBuf zeroBuf) ∧
    (Keys.from_der zeroBuf zeroBuf).encoding = zeroBuf ∧
    derIsPlausibleRsa zeroBuf = false := by
  refine ⟨by decide, by decide, by decide⟩

/-- C6 (amended): KeyMaterial construction is unconditional and performs
no DER parsing — Keys::from_der stores exactly the raw buffers it is
given — so a Keys value can hold bytes that are not valid DER RSA key
material, as the zeroed buffer shows. -/
theorem C6_amended_construction_unconditional :
    (∀ p q : List Nat, Keys.from_der p q = { encoding := p, decoding := q }) ∧
    derIsPlausibleRsa (Keys.from_der zeroBuf zeroBuf).encoding = false := by
  exact ⟨fun p q => rfl, by decide⟩

/-- C7: for every token test_keys issues at timestamp now, the expiry
claim embedded in the payload equals now + 7 days in unix seconds
(exactly: the model reads now once, so the one-second tolerance of the
claim is not needed), and is therefore strictly in the future at creation
time. -/
theorem C7_expiry (sg : Signer) (now : Nat) (keys : Keys) (t : Token)
    (h : test_keys sg now keys = .ok t) :
    t.payload.exp = now + 7 * 86400 ∧ now < t.payload.exp := by
  unfold test_keys at h
  cases hs : sg keys.encoding (testClaims now) with
  | none =>
    rw [hs] at h
    exact absurd h (by simp)
  | some s =>
    rw [hs] at h
    cases h
    exact ⟨rfl, by simp [testClaims]⟩

theorem C7_expiry_witness :
    tokenEmpty.payload.exp = 0 + 7 * 86400 ∧ 0 < tokenEmpty.payload.exp :=
  C7_expiry sgEmpty 0 keysEmpty tokenEmpty rfl

/-- C8: given equivalent valid key material — private DER bytes P and
public DER bytes Q presented as raw file bytes, base64-encoded file text
and base64-encoded environment values — all three loads yield the same
KeyMaterial, every attempt issues a token whose payload carries the
identical fixed subject and issuer (and the 7-day expiry of its own
clock reading), and, for any verification primitive sound for the
keypair, each issued token verifies against the public key Q. -/
theorem C8_source_equivalence (w : World) (sg : Signer)
    (vf : List Nat → Claims → List Nat → Bool) (now : LoaderKind → Nat)
    (P Q : List Nat) (s1 s2 e1 e2 : List Char)
    (hP : w.fsBytes "private.der" = .ok P) (hQ : w.fsBytes "public.der" = .ok Q)
    (hs1 : w.fsText "private.der.b64" = .ok s1) (hd1 : b64decode (rustTrim s1) = .ok P)
    (hs2 : w.fsText "public.der.b64" = .ok s2) (hd2 : b64decode (rustTrim s2) = .ok Q)
    (he1 : w.env "JWT_PRIVATE" = some e1) (hde1 : b64decode (rustTrim e1) = .ok P)
    (he2 : w.env "JWT_PUBLIC" = some e2) (hde2 : b64decode (rustTrim e2) = .ok Q)
    (hsg : ∀ n : Nat, ∃ s, sg P (testClaims n) = some s)
    (hvf : ∀ c s, sg P c = some s → vf Q c s = true) :
    (∀ l : LoaderKind, (loadOf l w).1 = .ok (Keys.from_der P Q)) ∧
    (∀ l : LoaderKind, ∃ t : Token,
      attempt sg (now l) l w = .reported (.issued t) ∧
      t.payload.sub = "test@domain.com" ∧ t.payload.iss = "main.rs" ∧
      t.payload.exp = now l + 7 * 86400 ∧ vf Q t.payload t.sig = true) := by
  have hload : ∀ l : LoaderKind, (loadOf l w).1 = .ok (Keys.from_der P Q) := by
    intro l
    cases l with
    | fileDer => simp [loadOf, FileDerLoader.load, hP, hQ]
    | b64FileDer =>
      simp [loadOf, B64FileDerLoader.load, b64file_to_bytes, hs1, hs2, hd1, hd2]
    | envB64Der =>
      simp [loadOf, EnvB64DerLoader.load, env_b64_to_bytes, he1, he2, hde1, hde2]
  refine ⟨hload, ?_⟩
  intro l
  obtain ⟨s, hs⟩ := hsg (now l)
  refine ⟨{ alg := .RS256, payload := testClaims (now l), sig := s }, ?_, rfl, rfl, rfl,
    hvf _ _ hs⟩
  simp [attempt, hload l, test_keys, Keys.from_der, hs]

theorem C8_source_equivalence_witness :
    (loadOf .envB64Der wEquiv).1 = .ok (Keys.from_der [0] [1]) :=
  (C8_source_equivalence wEquiv sgKeyZero vfTrue (fun _ => 5) [0] [1]
    ("AA==".toList) ("AQ==".toList) ("AA==".toList) ("AQ==".toList)
    rfl rfl rfl (by decide) rfl (by decide) rfl (by decide) rfl (by decide)
    (fun n => ⟨[7], rfl⟩) (fun c s h => rfl)).1 .envB64Der

lemma b64ValN_none_of_large {n : Nat} (h9 : 123 ≤ n) : b64ValN n = none := by
  unfold b64ValN
  rw [if_neg (by omega), if_neg (by omega), if_neg (by omega), if_neg (by omega),
    if_neg (by omega)]

lemma ws_not_b64 {n : Nat} (h : rustWhitespaceN n = true) : b64ValN n = none ∧ n ≠ 61 := by
  unfold rustWhitespaceN at h
  by_cases h1 : n = 9 ∨ n = 10 ∨ n = 11 ∨ n = 12 ∨ n = 13 ∨ n = 32 ∨ n = 133 ∨
      n = 160 ∨ n = 5760
  · rcases h1 with h1 | h1 | h1 | h1 | h1 | h1 | h1 | h1 | h1 <;> subst h1 <;>
      exact ⟨by decide, by decide⟩
  · rw [if_neg h1] at h
    by_cases h2 : 8192 ≤ n ∧ n ≤ 8202
    · exact ⟨b64ValN_none_of_large (by omega), by omega⟩
    · rw [if_neg h2] at h
      by_cases h3 : n = 8232 ∨ n = 8233 ∨ n = 8239 ∨ n = 8287 ∨ n = 12288
      · rcases h3 with h3 | h3 | h3 | h3 | h3 <;> subst h3 <;> exact ⟨by decide, by decide⟩
      · rw [if_neg h3] at h
        exact absurd h (by decide)

/-- A character that may appear in a base64 payload is not whitespace. -/
lemma b64Symbol_not_ws {c : Char} (h : isB64Symbol c = true) :
    isRustWhitespace c = false := by
  by_contra hc
  simp only [Bool.not_eq_false] at hc
  obtain ⟨h1, h2⟩ := ws_not_b64 (n := c.toNat) hc
  unfold isB64Symbol b64Val at h
  rw [h1] at h
  simp only [Option.isSome_none, Bool.false_or] at h
  have hce : c = '=' := eq_of_beq h
  refine h2 ?_
  rw [hce]
  rfl

lemma dropWhile_append_all {p : Char → Bool} {a b : List Char}
    (h : ∀ c ∈ a, p c = true) : (a ++ b).dropWhile p = b.dropWhile p := by
  induction a with
  | nil => rfl
  | cons x t ih =>
    have hx : p x = true := h x (List.mem_cons_self x t)
    simp only [List.cons_append, List.dropWhile, hx]
    exact ih (fun c hc => h c (List.mem_cons_of_mem x hc))

lemma dropWhile_cons_false {p : Char → Bool} {x : Char} {t : List Char}
    (h : p x = false) : (x :: t).dropWhile p = x :: t := by
  simp only [List.dropWhile, h]

lemma dropWhile_of_forall_false {p : Char → Bool} {s : List Char}
    (h : ∀ c ∈ s, p c = false) : s.dropWhile p = s := by
  cases s with
  | nil => rfl
  | cons x t => exact dropWhile_cons_false (h x (List.mem_cons_self x t))

lemma rustTrim_no_ws {s : List Char}
    (h : ∀ c ∈ s, isRustWhitespace c = false) : rustTrim s = s := by
  unfold rustTrim
  rw [dropWhile_of_forall_false h]
  rw [dropWhile_of_forall_false (fun c hc => h c (List.mem_reverse.mp hc))]
  exact List.reverse_reverse s

lemma dropWhile_all {p : Char → Bool} {a : List Char}
    (h : ∀ c ∈ a, p c = true) : a.dropWhile p = [] := by
  have hd : (a ++ ([] : List Char)).dropWhile p = ([] : List Char).dropWhile p :=
    dropWhile_append_all h
  simpa using hd

/-- Surrounding whitespace does not change the result of trimming a
whitespace-free payload. -/
lemma rustTrim_sandwich {s w1 w2 : List Char}
    (hs : ∀ c ∈ s, isRustWhitespace c = false)
    (h1 : ∀ c ∈ w1, isRustWhitespace c = true)
    (h2 : ∀ c ∈ w2, isRustWhitespace c = true) :
    rustTrim (w1 ++ s ++ w2) = rustTrim s := by
  rw [rustTrim_no_ws hs]
  unfold rustTrim
  rw [List.append_assoc, dropWhile_append_all h1]
  cases s with
  | nil =>
    simp only [List.nil_append]
    rw [dropWhile_all h2]
    rfl
  | cons x t =>
    have hx : isRustWhitespace x = false := hs x (List.mem_cons_self x t)
    rw [List.cons_append, dropWhile_cons_false hx]
    have hrev : (x :: (t ++ w2)).reverse = w2.reverse ++ (x :: t).reverse := by
      rw [List.reverse_cons, List.reverse_append, List.reverse_cons, List.append_assoc]
    rw [hrev]
    rw [dropWhile_append_all (fun c hc => h2 c (List.mem_reverse.mp hc))]
    rw [dropWhile_of_forall_false (fun c hc => hs c (List.mem_reverse.mp hc))]
    exact List.reverse_reverse (x :: t)

/-- C9: a whitespace-free base64 payload surrounded by leading or
trailing unicode whitespace decodes, through the trim-then-decode path
both loaders use, to exactly the same result as the bare payload; stated
both for the decode composition itself and for b64file_to_bytes and
env_b64_to_bytes on worlds presenting the padded and the bare form. -/
theorem C9_whitespace_invariance (s w1 w2 : List Char)
    (hs : ∀ c ∈ s, isB64Symbol c = true)
    (h1 : ∀ c ∈ w1, isRustWhitespace c = true)
    (h2 : ∀ c ∈ w2, isRustWhitespace c = true) :
    b64decode (rustTrim (w1 ++ s ++ w2)) = b64decode (rustTrim s) ∧
    (∀ (wa wb : World) (path : String),
      wa.fsText path = .ok (w1 ++ s ++ w2) → wb.fsText path = .ok s →
      b64file_to_bytes wa path = b64file_to_bytes wb path) ∧
    (∀ (wa wb : World) (v : String),
      wa.env v = some (w1 ++ s ++ w2) → wb.env v = some s →
      env_b64_to_bytes wa v = env_b64_to_bytes wb v) := by
  have hs' : ∀ c ∈ s, isRustWhitespace c = false := by
    intro c hc
    exact b64Symbol_not_ws (hs c hc)
  have htrim : rustTrim (w1 ++ s ++ w2) = rustTrim s := rustTrim_sandwich hs' h1 h2
  have hdec : b64decode (rustTrim (w1 ++ s ++ w2)) = b64decode (rustTrim s) := by
    rw [htrim]
  have hdec2 : b64decode (rustTrim (w1 ++ (s ++ w2))) = b64decode (rustTrim s) := by
    rw [← List.append_assoc]
    exact hdec
  refine ⟨hdec, ?_, ?_⟩
  · intro wa wb path ha hb
    simp [b64file_to_bytes, ha, hb, hdec2]
  · intro wa wb v ha hb
    simp [env_b64_to_bytes, ha, hb, hdec2]

theorem C9_whitespace_invariance_witness :
    b64decode (rustTrim ([' '] ++ ("AA==".toList) ++ ['\n'])) =
      b64decode (rustTrim ("AA==".toList)) :=
  (C9_whitespace_invariance ("AA==".toList) [' '] ['\n']
    (by decide) (by decide) (by decide)).1

/-- C10: in every loader the private-key resource is read and converted
first, and the first failure short-circuits: when the private-key stage
does not succeed, the load returns exactly that failure of the stage (a
panic propagates as a panic, a returned error is the reported error of
the attempt), the access log holds only the private-key resource, and in
particular the public-key resource is never accessed. -/
theorem C10_private_first (l : LoaderKind) (w : World) :
    (privStage l w = .panic → loadOf l w = (.panic, [privName l])) ∧
    (∀ e, privStage l w = .err e → loadOf l w = (.err e, [privName l])) ∧
    ((∀ p, privStage l w ≠ .ok p) → pubName l ∉ (loadOf l w).2) := by
  cases l with
  | fileDer =>
    cases hp : w.fsBytes "private.der" with
    | ok p =>
      refine ⟨?_, ?_, ?_⟩
      · intro h
        simp [privStage, hp] at h
      · intro e h
        simp [privStage, hp] at h
      · intro h
        exact absurd (by simp [privStage, hp]) (h p)
    | err e0 =>
      refine ⟨?_, ?_, ?_⟩
      · intro h
        simp [privStage, hp] at h
      · intro e h
        simp only [privStage, hp] at h
        cases h
        simp [loadOf, FileDerLoader.load, privName, hp]
      · intro _
        simp only [loadOf, FileDerLoader.load, hp]
        simp [pubName]
  | b64FileDer =>
    cases hp : b64file_to_bytes w "private.der.b64" with
    | ok p =>
      refine ⟨?_, ?_, ?_⟩
      · intro h
        simp [privStage, hp] at h
      · intro e h
        simp [privStage, hp] at h
      · intro h
        exact absurd (by simp [privStage, hp]) (h p)
    | err e0 =>
      refine ⟨?_, ?_, ?_⟩
      · intro h
        simp [privStage, hp] at h
      · intro e h
        simp only [privStage, hp] at h
        cases h
        simp [loadOf, B64FileDerLoader.load, privName, hp]
      · intro _
        simp only [loadOf, B64FileDerLoader.load, hp]
        simp [pubName]
    | panic =>
      refine ⟨?_, ?_, ?_⟩
      · intro _
        simp [loadOf, B64FileDerLoader.load, privName, hp]
      · intro e h
        simp [privStage, hp] at h
      · intro _
        simp only [loadOf, B64FileDerLoader.load, hp]
        simp [pubName]
  | envB64Der =>
    cases hp : env_b64_to_bytes w "JWT_PRIVATE" with
    | ok p =>
      refine ⟨?_, ?_, ?_⟩
      · intro h
        simp [privStage, hp] at h
      · intro e h
        simp [privStage, hp] at h
      · intro h
        exact absurd (by simp [privStage, hp]) (h p)
    | err e0 =>
      refine ⟨?_, ?_, ?_⟩
      · intro h
        simp [privStage, hp] at h
      · intro e h
        simp only [privStage, hp] at h
        cases h
        simp [loadOf, EnvB64DerLoader.load, privName, hp]
      · intro _
        simp only [loadOf, EnvB64DerLoader.load, hp]
        simp [pubName]
    | panic =>
      refine ⟨?_, ?_, ?_⟩
      · intro _
        simp [loadOf, EnvB64DerLoader.load, privName, hp]
      · intro e h
        simp [privStage, hp] at h
      · intro _
        simp only [loadOf, EnvB64DerLoader.load, hp]
        simp [pubName]

theorem C10_private_first_witness :
    loadOf .fileDer wAllBoom = (.err (.fileReadError "boom"), ["private.der"]) :=
  (C10_private_first .fileDer wAllBoom).2.1 (.fileReadError "boom") rfl

end DerBroken
